import Mathlib

/-!
Verification development for the py_mac MAC50 motor driver
(src/py_mac/MAC50Motor.py).

The Python class MAC50Motor is shallowly embedded: bytes become lists of
natural numbers, exceptions become an explicit error type, the serial
transport becomes an oracle giving the response bytes for each request,
and the object state (the config and status caches) is passed explicitly.
Python acquiring a non-reentrant threading.Lock that the same call already
holds blocks forever; this is modelled by an explicit hang outcome, with
the set of locks currently held passed to the helpers that re-acquire.
-/

/-- Distinct failure kinds. Each constructor corresponds to one distinct
raise site in MAC50Motor.py (the Python code raises ValueError with a
distinct message at each, except typeError, which models the TypeError
produced when a non-integer register identifier reaches the comparison
with an integer in the low-level read or write, and unknownMode for an
invalid mode lookup, where Python raises KeyError or ValueError). -/
inductive MacError where
  | invalidAddressParam
  | invalidRegisterNumber
  | invalidFrame
  | invalidAddress
  | invalidRegister
  | invalidComplement
  | oddPayload
  | payloadTooLarge
  | invalidResponse
  | valueOutOfRange
  | sizeMismatch
  | unknownRegister
  | unknownMode
  | wrongMode
  | positionOutOfBounds
  | typeError
deriving DecidableEq, Repr

/-- Closed enumeration of the 26 operating modes, copied from the
OperatingMode enum in MAC50Motor.py (lines 8 to 34). -/
inductive OperatingMode where
  | PASSIVE
  | VELOCITY
  | POSITION
  | GEAR_POSITION
  | ANALOGUE_TORQUE
  | ANALOGUE_VELOCITY
  | ANALOGUE_VELOCITY_GEAR
  | MANUAL_CURRENT
  | STEP_RESPONSE_TEST
  | INTERNAL_TEST
  | BRAKE
  | STOP
  | TORQUE_BASED_ZERO_SEARCH
  | FORWARD_ONLY_ZERO_SEARCH
  | FORWARD_BACKWARD_ZERO_SEARCH
  | SAFE_MODE
  | ANALOGUE_VELOCITY_WITH_DEAD_BAND
  | VELOCITY_LIMITED_ANALOGUE_TORQUE
  | ANALOGUE_GEAR
  | COIL
  | ANALOGUE_BI_POSITION
  | ANALOGUE_TO_POSITION
  | INTERNAL_TEST_2
  | INTERNAL_TEST_3
  | GEAR_FOLLOW
  | IHOME
deriving DecidableEq, Repr

/-- Numeric value of each operating mode, as in the Python enum. -/
def OperatingMode.val : OperatingMode → Nat
  | .PASSIVE => 0
  | .VELOCITY => 1
  | .POSITION => 2
  | .GEAR_POSITION => 3
  | .ANALOGUE_TORQUE => 4
  | .ANALOGUE_VELOCITY => 5
  | .ANALOGUE_VELOCITY_GEAR => 6
  | .MANUAL_CURRENT => 7
  | .STEP_RESPONSE_TEST => 8
  | .INTERNAL_TEST => 9
  | .BRAKE => 10
  | .STOP => 11
  | .TORQUE_BASED_ZERO_SEARCH => 12
  | .FORWARD_ONLY_ZERO_SEARCH => 13
  | .FORWARD_BACKWARD_ZERO_SEARCH => 14
  | .SAFE_MODE => 15
  | .ANALOGUE_VELOCITY_WITH_DEAD_BAND => 16
  | .VELOCITY_LIMITED_ANALOGUE_TORQUE => 17
  | .ANALOGUE_GEAR => 18
  | .COIL => 19
  | .ANALOGUE_BI_POSITION => 20
  | .ANALOGUE_TO_POSITION => 21
  | .INTERNAL_TEST_2 => 22
  | .INTERNAL_TEST_3 => 23
  | .GEAR_FOLLOW => 24
  | .IHOME => 25

/-- Lookup of an operating mode by numeric value, modelling the Python
value call OperatingMode(n), which raises ValueError when n is not the
value of any member. -/
def OperatingMode.ofNat? : Nat → Option OperatingMode
  | 0 => some .PASSIVE
  | 1 => some .VELOCITY
  | 2 => some .POSITION
  | 3 => some .GEAR_POSITION
  | 4 => some .ANALOGUE_TORQUE
  | 5 => some .ANALOGUE_VELOCITY
  | 6 => some .ANALOGUE_VELOCITY_GEAR
  | 7 => some .MANUAL_CURRENT
  | 8 => some .STEP_RESPONSE_TEST
  | 9 => some .INTERNAL_TEST
  | 10 => some .BRAKE
  | 11 => some .STOP
  | 12 => some .TORQUE_BASED_ZERO_SEARCH
  | 13 => some .FORWARD_ONLY_ZERO_SEARCH
  | 14 => some .FORWARD_BACKWARD_ZERO_SEARCH
  | 15 => some .SAFE_MODE
  | 16 => some .ANALOGUE_VELOCITY_WITH_DEAD_BAND
  | 17 => some .VELOCITY_LIMITED_ANALOGUE_TORQUE
  | 18 => some .ANALOGUE_GEAR
  | 19 => some .COIL
  | 20 => some .ANALOGUE_BI_POSITION
  | 21 => some .ANALOGUE_TO_POSITION
  | 22 => some .INTERNAL_TEST_2
  | 23 => some .INTERNAL_TEST_3
  | 24 => some .GEAR_FOLLOW
  | 25 => some .IHOME
  | _ + 26 => none

/-- Lookup of an operating mode by an integer value (the Python int can
be negative, in which case OperatingMode(i) also raises ValueError). -/
def OperatingMode.ofInt? (i : Int) : Option OperatingMode :=
  if i < 0 then none else OperatingMode.ofNat? i.toNat

/-- Lookup of an operating mode by its member name, modelling the Python
index expression OperatingMode[name], which raises KeyError when the name
is not a member name. -/
def OperatingMode.ofName? (s : String) : Option OperatingMode :=
  if s = "PASSIVE" then some .PASSIVE
  else if s = "VELOCITY" then some .VELOCITY
  else if s = "POSITION" then some .POSITION
  else if s = "GEAR_POSITION" then some .GEAR_POSITION
  else if s = "ANALOGUE_TORQUE" then some .ANALOGUE_TORQUE
  else if s = "ANALOGUE_VELOCITY" then some .ANALOGUE_VELOCITY
  else if s = "ANALOGUE_VELOCITY_GEAR" then some .ANALOGUE_VELOCITY_GEAR
  else if s = "MANUAL_CURRENT" then some .MANUAL_CURRENT
  else if s = "STEP_RESPONSE_TEST" then some .STEP_RESPONSE_TEST
  else if s = "INTERNAL_TEST" then some .INTERNAL_TEST
  else if s = "BRAKE" then some .BRAKE
  else if s = "STOP" then some .STOP
  else if s = "TORQUE_BASED_ZERO_SEARCH" then some .TORQUE_BASED_ZERO_SEARCH
  else if s = "FORWARD_ONLY_ZERO_SEARCH" then some .FORWARD_ONLY_ZERO_SEARCH
  else if s = "FORWARD_BACKWARD_ZERO_SEARCH" then some .FORWARD_BACKWARD_ZERO_SEARCH
  else if s = "SAFE_MODE" then some .SAFE_MODE
  else if s = "ANALOGUE_VELOCITY_WITH_DEAD_BAND" then some .ANALOGUE_VELOCITY_WITH_DEAD_BAND
  else if s = "VELOCITY_LIMITED_ANALOGUE_TORQUE" then some .VELOCITY_LIMITED_ANALOGUE_TORQUE
  else if s = "ANALOGUE_GEAR" then some .ANALOGUE_GEAR
  else if s = "COIL" then some .COIL
  else if s = "ANALOGUE_BI_POSITION" then some .ANALOGUE_BI_POSITION
  else if s = "ANALOGUE_TO_POSITION" then some .ANALOGUE_TO_POSITION
  else if s = "INTERNAL_TEST_2" then some .INTERNAL_TEST_2
  else if s = "INTERNAL_TEST_3" then some .INTERNAL_TEST_3
  else if s = "GEAR_FOLLOW" then some .GEAR_FOLLOW
  else if s = "IHOME" then some .IHOME
  else none

/-- Decidable equality for Except results, used to evaluate the model on
concrete inputs. -/
instance {ε α : Type} [DecidableEq ε] [DecidableEq α] : DecidableEq (Except ε α) :=
  fun x y =>
  match x, y with
  | .ok a, .ok b =>
    match decEq a b with
    | isTrue h => isTrue (h ▸ rfl)
    | isFalse h => isFalse fun hc => h (Except.ok.inj hc)
  | .error a, .error b =>
    match decEq a b with
    | isTrue h => isTrue (h ▸ rfl)
    | isFalse h => isFalse fun hc => h (Except.error.inj hc)
  | .ok _, .error _ => isFalse fun hc => Except.noConfusion hc
  | .error _, .ok _ => isFalse fun hc => Except.noConfusion hc

/-- Frames on the wire are byte lists. -/
abbrev Frame := List Nat

/-- Elements of a list at even indices, modelling the Python slice
data_full[0::2]. -/
def evensOf : List Nat → List Nat
  | [] => []
  | [a] => [a]
  | a :: _ :: rest => a :: evensOf rest

/-- Elements of a list at odd indices, modelling the Python slice
data_full[1::2]. -/
def oddsOf : List Nat → List Nat
  | [] => []
  | [_] => []
  | _ :: b :: rest => b :: oddsOf rest

/-- Interleaving of the data bytes with their complements, modelling the
Python list comprehension over zip(data, complement) in write. -/
def interleave : List Nat → List Nat
  | [] => []
  | b :: rest => b :: (0xff ^^^ b) :: interleave rest

/-- Little-endian byte list read as an unsigned natural number, modelling
the Python call int.from_bytes(bs, byteorder="little"). -/
def fromLEBytes : List Nat → Nat
  | [] => 0
  | b :: rest => b + 256 * fromLEBytes rest

/-- Little-endian byte list read as an integer, twos complement when
signed is requested, modelling int.from_bytes with the signed flag. -/
def intFromBytes (bs : List Nat) (signed : Bool) : Int :=
  let n := fromLEBytes bs
  if signed = true ∧ 2 ^ (8 * bs.length - 1) ≤ n then
    (n : Int) - 2 ^ (8 * bs.length)
  else (n : Int)

/-- Little-endian encoding of a natural number into a fixed number of
bytes. -/
def natToLE (n : Nat) : Nat → List Nat
  | 0 => []
  | size + 1 => (n % 256) :: natToLE (n / 256) size

/-- Unsigned little-endian encoding of an integer into exactly size
bytes, modelling the Python call value.to_bytes(size, byteorder="little")
with the default unsigned interpretation: none models the OverflowError
raised when the value is negative or does not fit. -/
def toLEBytes? (v : Int) (size : Nat) : Option (List Nat) :=
  if v < 0 ∨ (2 : Int) ^ (8 * size) ≤ v then none
  else some (natToLE v.toNat size)

/-- Request frame emitted by the low-level read, copied from line 104 of
MAC50Motor.py. -/
def readRequest (address reg_num : Nat) : Frame :=
  [0x50, 0x50, 0x50, address, 0xff ^^^ address, reg_num, 0xff ^^^ reg_num, 0xaa, 0xaa]

/-- Expected response template for a read, copied from line 112. -/
def expectedResp (reg_num : Nat) : List Nat :=
  [0x52, 0x52, 0x52, 0x00, 0xff, reg_num, 0xff ^^^ reg_num, 0x04, 0xfb,
   0x00, 0x00, 0x00, 0x00, 0x00, 0x00, 0x00, 0x00, 0xaa, 0xaa]

/-- Mask selecting the frame markers, length field and terminator,
copied from line 113. -/
def frame_mask : List Nat :=
  [0xff, 0xff, 0xff, 0x00, 0x00, 0x00, 0x00, 0xff, 0xff,
   0x00, 0x00, 0x00, 0x00, 0x00, 0x00, 0x00, 0x00, 0xff, 0xff]

/-- Mask selecting the address field, copied from line 114. -/
def address_mask : List Nat :=
  [0x00, 0x00, 0x00, 0xff, 0xff, 0x00, 0x00, 0x00, 0x00,
   0x00, 0x00, 0x00, 0x00, 0x00, 0x00, 0x00, 0x00, 0x00, 0x00]

/-- Mask selecting the register echo field, copied from line 115. -/
def register_mask : List Nat :=
  [0x00, 0x00, 0x00, 0x00, 0x00, 0xff, 0xff, 0x00, 0x00,
   0x00, 0x00, 0x00, 0x00, 0x00, 0x00, 0x00, 0x00, 0x00, 0x00]

/-- Masked elementwise comparison of the response against the expected
template. Python zip truncates to the shortest of the three lists, so a
short response is only compared on the positions it actually has; this
truncation is preserved here on purpose (it is load bearing for the
behaviour on short responses). -/
def maskedEq : List Nat → List Nat → List Nat → Bool
  | r :: rs, m :: ms, e :: es => (r &&& m == e &&& m) && maskedEq rs ms es
  | _, _, _ => true

/-- Validation of a read response, modelling lines 112 to 134 of read:
the three masked comparisons in order, then the complement check on the
alternating data and complement bytes of response[9:17], returning the
data bytes. -/
def decodeResp (reg_num : Nat) (response : List Nat) : Except MacError (List Nat) :=
  if ¬ (maskedEq response frame_mask (expectedResp reg_num) = true) then
    .error .invalidFrame
  else if ¬ (maskedEq response address_mask (expectedResp reg_num) = true) then
    .error .invalidAddress
  else if ¬ (maskedEq response register_mask (expectedResp reg_num) = true) then
    .error .invalidRegister
  else
    let data_full := (response.drop 9).take 8
    let data := evensOf data_full
    let complement := oddsOf data_full
    if ¬ (complement = data.map (fun b => 0xff ^^^ b)) then
      .error .invalidComplement
    else
      .ok data

/-- Low-level read round-trip, modelling MAC50Motor.read (lines 94 to
134): the register range check, then the request frame is written to the
serial port (the emitted frames are returned as the trace) and the
response bytes handed back by the transport are validated. -/
def lowRead (address reg_num : Nat) (response : List Nat) :
    Except MacError (List Nat) × List Frame :=
  if 255 < reg_num then (.error .invalidRegisterNumber, [])
  else (decodeResp reg_num response, [readRequest address reg_num])

/-- Command frame emitted by the low-level write, copied from line 151. -/
def writeFrame (address reg_num : Nat) (data : List Nat) : Frame :=
  [0x52, 0x52, 0x52, address, 0xff ^^^ address, reg_num, 0xff ^^^ reg_num,
   data.length, 0xff ^^^ data.length]
  ++ interleave data ++ [0xaa, 0xaa]

/-- Low-level write round-trip, modelling MAC50Motor.write (lines 136 to
159): range, parity and size checks before any transport output, then
the command frame is emitted and the three acknowledgement bytes read
back are compared against 0x11 0x11 0x11. -/
def lowWrite (address reg_num : Nat) (data : List Nat) (ack : List Nat) :
    Except MacError Unit × List Frame :=
  if 255 < reg_num then (.error .invalidRegisterNumber, [])
  else if data.length % 2 ≠ 0 then (.error .oddPayload, [])
  else if 255 < data.length then (.error .payloadTooLarge, [])
  else if ¬ (ack = [0x11, 0x11, 0x11]) then
    (.error .invalidResponse, [writeFrame address reg_num data])
  else (.ok (), [writeFrame address reg_num data])

/-- Register descriptor: the address (the nb field of registers.json),
the byte size and the name. The descriptor table itself ships as a
package resource (registers.json) that is not part of the sources, so
tables are kept abstract as lists of descriptors. -/
structure RegDesc where
  addr : Nat
  size : Nat
  name : String
deriving DecidableEq, Repr

/-- Runtime type union for the register parameter of the high-level
functions: a name string, a numeric address or a resolved Register
member (carrying its descriptor data). -/
inductive RegId where
  | byName (s : String)
  | byAddr (n : Nat)
  | byHandle (d : RegDesc)
deriving DecidableEq, Repr

/-- Resolution of a register identifier, modelling register_from (lines
300 to 317): a Register member is returned as is, an int is looked up as
an address (Python Register(int) raises ValueError when absent), a
string is searched among the descriptor names. -/
def register_from (table : List RegDesc) : RegId → Except MacError RegDesc
  | .byHandle d => .ok d
  | .byAddr n =>
    match table.find? (fun d => d.addr == n) with
    | some d => .ok d
    | none => .error .unknownRegister
  | .byName s =>
    match table.find? (fun d => d.name == s) with
    | some d => .ok d
    | none => .error .unknownRegister

/-- Serial device oracle: the 19 (or fewer) bytes the transport hands
back for a read of a given register, and the acknowledgement bytes it
hands back after a write. -/
structure Dev where
  resp : Nat → List Nat
  ack : List Nat

/-- High-level register read, modelling read_register (lines 161 to
169): resolve the identifier, do the low-level round-trip on the
resolved register address, truncate the returned data bytes to the
declared size and decode little-endian with the requested signedness. -/
def read_register (table : List RegDesc) (address : Nat) (register : RegId)
    (signed : Bool) (dev : Dev) : Except MacError Int × List Frame :=
  match register_from table register with
  | .error e => (.error e, [])
  | .ok reg =>
    match lowRead address reg.addr (dev.resp reg.addr) with
    | (.error e, tr) => (.error e, tr)
    | (.ok data, tr) => (.ok (intFromBytes (data.take reg.size) signed), tr)

/-- Runtime type union for the data parameter of write_register. -/
inductive PyVal where
  | int (i : Int)
  | bytes (bs : List Nat)
deriving DecidableEq, Repr

/-- High-level register write, modelling write_register (lines 171 to
184): resolve the identifier, encode an integer into exactly the
declared size (OverflowError when it does not fit, modelled as
valueOutOfRange) or check the length of raw bytes, then delegate. Line
184 of the source passes the ORIGINAL register argument, not the
resolved address, to the low-level write: when that argument is a name
string or a Register member, the comparison reg_num < 0 inside write
raises TypeError, modelled here by the typeError outcome with no frame
emitted. -/
def write_register (table : List RegDesc) (address : Nat) (register : RegId)
    (data : PyVal) (ack : List Nat) : Except MacError Unit × List Frame :=
  match register_from table register with
  | .error e => (.error e, [])
  | .ok reg =>
    let enc : Except MacError (List Nat) :=
      match data with
      | .int i =>
        match toLEBytes? i reg.size with
        | none => .error .valueOutOfRange
        | some bs => .ok bs
      | .bytes bs =>
        if bs.length ≠ reg.size then .error .sizeMismatch else .ok bs
    match enc with
    | .error e => (.error e, [])
    | .ok bs =>
      match register with
      | .byAddr n => lowWrite address n bs ack
      | _ => (.error .typeError, [])

/-- Config cache, one field per entry of the dict built by
refresh_config (lines 256 to 278). -/
structure Config where
  max_velocity : Int
  max_acceleration : Int
  max_torque : Int
  gear_ratio_nominator : Int
  gear_ratio_denominator : Int
  max_winding_energy : Int
  max_dumped_energy : Int
  max_regulation_error : Int
  max_movement_error : Int
  min_position : Int
  max_position : Int
  emergency_deceleration : Int
  starting_mode : OperatingMode
  home_position : Int
  homing_velocity : Int
  homing_mode : Int
  min_supply_voltage : Int
  motor_type : Int
  serial_number : Int
  config_address : Int
  hardware_version : Int
deriving DecidableEq, Repr

/-- Status cache, one field per entry of the dict built by
refresh_status (lines 285 to 298). -/
structure Status where
  operating_mode : OperatingMode
  target_position : Int
  actual_position : Int
  actual_velocity : Int
  load_factor : Int
  winding_energy : Int
  dumped_energy : Int
  regulation_error : Int
  movement_error : Int
  error_flags : Int
  control : Int
  supply_voltage : Int
deriving DecidableEq, Repr

/-- Descriptors of the registers the class accesses by name through
self.Register. Their data comes from the registers.json resource, which
is not among the sources, so the descriptors are parameters of the
model. -/
structure NamedRegs where
  MODE_REG : RegDesc
  P_SOLL : RegDesc
  P_IST : RegDesc
  V_SOLL : RegDesc
  A_SOLL : RegDesc
  T_SOLL : RegDesc
  GEARF1 : RegDesc
  GEARF2 : RegDesc
  I2TLIM : RegDesc
  UITLIM : RegDesc
  FLWERRMAX : RegDesc
  FNCERRMAX : RegDesc
  MIN_P_IST : RegDesc
  MAX_P_IST : RegDesc
  ACC_EMERG : RegDesc
  STARTMODE : RegDesc
  P_HOME : RegDesc
  V_HOME : RegDesc
  HOMEMODE : RegDesc
  MIN_U_SUP : RegDesc
  MOTORTYPE : RegDesc
  SERIALNUMBER : RegDesc
  MYADDR : RegDesc
  HWVERSION : RegDesc
  V_IST : RegDesc
  KVOUT : RegDesc
  I2T : RegDesc
  UIT : RegDesc
  FLWERR : RegDesc
  FNCERR : RegDesc
  ERR_STAT : RegDesc
  CNTRL_BITS : RegDesc
  U_SUPPLY : RegDesc
deriving DecidableEq, Repr

/-- State of one MAC50Motor instance: the device address, the register
table, the named register descriptors and the two caches. -/
structure Motor where
  address : Nat
  table : List RegDesc
  regs : NamedRegs
  config : Config
  status : Status
deriving DecidableEq, Repr

/-- Locks held by the current call. The serial lock is omitted: it is
only acquired inside the low-level read and write and no caller holds it
there, so its acquisition always succeeds. -/
structure Locks where
  config : Bool
  status : Bool
deriving DecidableEq, Repr

/-- Outcome of an operation: a value, a raised error, or blocking
forever on acquiring a non-reentrant lock the call already holds. -/
inductive Outcome (α : Type) where
  | ok (a : α)
  | err (e : MacError)
  | hang
deriving DecidableEq, Repr

/-- First component of read_register, for the operations that only need
the result. -/
def readRegD (m : Motor) (d : RegDesc) (signed : Bool) (dev : Dev) :
    Except MacError Int :=
  (read_register m.table m.address (.byHandle d) signed dev).1

/-- Operation get_mode (lines 186 to 197): read MODE_REG, decode the
operating mode and update the status cache. -/
def get_mode (m : Motor) (dev : Dev) :
    Outcome OperatingMode × Motor × List Frame :=
  match read_register m.table m.address (.byHandle m.regs.MODE_REG) false dev with
  | (.error e, tr) => (.err e, m, tr)
  | (.ok v, tr) =>
    match OperatingMode.ofInt? v with
    | none => (.err .unknownMode, m, tr)
    | some mode =>
      (.ok mode, { m with status := { m.status with operating_mode := mode } }, tr)

/-- Operation get_position (lines 226 to 234), parametrised by the locks
the caller already holds: the function starts by acquiring the status
lock, which blocks forever when the caller holds it, since
threading.Lock is not reentrant. -/
def get_position_held (held : Locks) (m : Motor) (dev : Dev) :
    Outcome Int × Motor × List Frame :=
  if held.status then (.hang, m, [])
  else
    match read_register m.table m.address (.byHandle m.regs.P_IST) true dev with
    | (.error e, tr) => (.err e, m, tr)
    | (.ok pos, tr) =>
      (.ok pos, { m with status := { m.status with actual_position := pos } }, tr)

/-- Operation get_position as invoked by an outside caller, holding no
locks. -/
def get_position (m : Motor) (dev : Dev) : Outcome Int × Motor × List Frame :=
  get_position_held { config := false, status := false } m dev

/-- Upper-casing of one ASCII character, modelling the effect of the
Python method str.upper on the mode names (all ASCII). -/
def pyUpperChar (c : Char) : Char :=
  if 97 <= c.toNat ∧ c.toNat <= 122 then Char.ofNat (c.toNat - 32) else c

/-- Upper-casing of a string, modelling the Python call mode.upper(). -/
def pyUpper (s : String) : String := String.mk (s.data.map pyUpperChar)

/-- Runtime type union for the mode parameter of set_mode. -/
inductive ModeArg where
  | str (s : String)
  | bytes (bs : List Nat)
  | int (i : Int)
  | mode (md : OperatingMode)
deriving DecidableEq, Repr

/-- Normalisation of the mode argument, modelling lines 204 to 211 of
set_mode: a string is upper-cased and looked up by name, bytes are
decoded little-endian and looked up by value, an int is looked up by
value, an OperatingMode passes through. -/
def normalizeMode : ModeArg → Except MacError OperatingMode
  | .str s =>
    match OperatingMode.ofName? (pyUpper s) with
    | some md => .ok md
    | none => .error .unknownMode
  | .bytes bs =>
    match OperatingMode.ofNat? (fromLEBytes bs) with
    | some md => .ok md
    | none => .error .unknownMode
  | .int i =>
    match OperatingMode.ofInt? i with
    | some md => .ok md
    | none => .error .unknownMode
  | .mode md => .ok md

/-- Shared tail of set_mode (lines 223 and 224): write MODE_REG through
write_register (passing the Register member as the identifier, exactly
as the source does) and, only if that returns, update the cached
operating mode. -/
def set_mode_commit (m : Motor) (dev : Dev) (mode : OperatingMode)
    (tr : List Frame) : Outcome Unit × Motor × List Frame :=
  match write_register m.table m.address (.byHandle m.regs.MODE_REG)
      (.int (mode.val : Int)) dev.ack with
  | (.error e, tr2) => (.err e, m, tr ++ tr2)
  | (.ok _, tr2) =>
    (.ok (), { m with status := { m.status with operating_mode := mode } }, tr ++ tr2)

/-- Operation set_mode (lines 199 to 224): normalise the argument; under
the status lock return immediately when the target equals the cached
mode; otherwise under the config lock, when the target is POSITION and
the cached limits are not both zero, call get_position (which
re-acquires the already held status lock) and reject when the position
is outside the window; then commit the register write and the cache
update. -/
def set_mode (m : Motor) (dev : Dev) (arg : ModeArg) :
    Outcome Unit × Motor × List Frame :=
  match normalizeMode arg with
  | .error e => (.err e, m, [])
  | .ok mode =>
    if mode = m.status.operating_mode then (.ok (), m, [])
    else
      if mode = OperatingMode.POSITION ∧
          (m.config.min_position ≠ 0 ∨ m.config.max_position ≠ 0) then
        match get_position_held { config := true, status := true } m dev with
        | (.hang, m1, tr1) => (.hang, m1, tr1)
        | (.err e, m1, tr1) => (.err e, m1, tr1)
        | (.ok position, m1, tr1) =>
          if position < m1.config.min_position ∨ m1.config.max_position < position then
            (.err .positionOutOfBounds, m1, tr1)
          else set_mode_commit m1 dev mode tr1
      else set_mode_commit m dev mode []

/-- Operation set_target_position (lines 236 to 249): under the config
lock, reject with wrongMode unless ignore_mode is set or the cached mode
is POSITION; then under the status lock write P_SOLL through
write_register (again passing the Register member, as the source does)
and update the cached target position only if the write returns. -/
def set_target_position (m : Motor) (dev : Dev) (position : Int)
    (ignore_mode : Bool) : Outcome Unit × Motor × List Frame :=
  if ignore_mode = false ∧ ¬ (m.status.operating_mode = OperatingMode.POSITION) then
    (.err .wrongMode, m, [])
  else
    match write_register m.table m.address (.byHandle m.regs.P_SOLL)
        (.int position) dev.ack with
    | (.error e, tr) => (.err e, m, tr)
    | (.ok _, tr) =>
      (.ok (), { m with status := { m.status with target_position := position } }, tr)

/-- Value of the status dict literal of refresh_status (lines 285 to
298), evaluated entry by entry in source order; the first failing read
aborts the whole dict before the cache is touched. The MODE_REG entry
also decodes the operating mode immediately, as the source wraps that
read in OperatingMode(...). -/
def refresh_status_result (m : Motor) (dev : Dev) : Except MacError Status := do
  let mode_raw ← readRegD m m.regs.MODE_REG false dev
  let mode ←
    match OperatingMode.ofInt? mode_raw with
    | some md => Except.ok md
    | none => Except.error MacError.unknownMode
  let tp ← readRegD m m.regs.P_SOLL true dev
  let ap ← readRegD m m.regs.P_IST true dev
  let av ← readRegD m m.regs.V_IST true dev
  let lf ← readRegD m m.regs.KVOUT false dev
  let we ← readRegD m m.regs.I2T false dev
  let de ← readRegD m m.regs.UIT false dev
  let re ← readRegD m m.regs.FLWERR true dev
  let me ← readRegD m m.regs.FNCERR true dev
  let er ← readRegD m m.regs.ERR_STAT false dev
  let ct ← readRegD m m.regs.CNTRL_BITS false dev
  let sv ← readRegD m m.regs.U_SUPPLY false dev
  return { operating_mode := mode, target_position := tp, actual_position := ap,
           actual_velocity := av, load_factor := lf, winding_energy := we,
           dumped_energy := de, regulation_error := re, movement_error := me,
           error_flags := er, control := ct, supply_voltage := sv }

/-- Operation refresh_status (lines 280 to 298): the status cache is
replaced wholesale only when every read succeeded. The transport trace
is not recorded for the bulk refreshes, as no stated property concerns
it. -/
def refresh_status (m : Motor) (dev : Dev) : Outcome Unit × Motor :=
  match refresh_status_result m dev with
  | .error e => (.err e, m)
  | .ok st => (.ok (), { m with status := st })

/-- Value of the config dict literal of refresh_config (lines 256 to
278), evaluated entry by entry in source order. -/
def refresh_config_result (m : Motor) (dev : Dev) : Except MacError Config := do
  let mv ← readRegD m m.regs.V_SOLL false dev
  let ma ← readRegD m m.regs.A_SOLL false dev
  let mt ← readRegD m m.regs.T_SOLL false dev
  let g1 ← readRegD m m.regs.GEARF1 false dev
  let g2 ← readRegD m m.regs.GEARF2 false dev
  let mw ← readRegD m m.regs.I2TLIM false dev
  let md ← readRegD m m.regs.UITLIM false dev
  let mr ← readRegD m m.regs.FLWERRMAX false dev
  let mm ← readRegD m m.regs.FNCERRMAX false dev
  let minp ← readRegD m m.regs.MIN_P_IST true dev
  let maxp ← readRegD m m.regs.MAX_P_IST true dev
  let ed ← readRegD m m.regs.ACC_EMERG false dev
  let sm_raw ← readRegD m m.regs.STARTMODE false dev
  let sm ←
    match OperatingMode.ofInt? sm_raw with
    | some x => Except.ok x
    | none => Except.error MacError.unknownMode
  let hp ← readRegD m m.regs.P_HOME true dev
  let hv ← readRegD m m.regs.V_HOME false dev
  let hm ← readRegD m m.regs.HOMEMODE false dev
  let ms ← readRegD m m.regs.MIN_U_SUP false dev
  let mo ← readRegD m m.regs.MOTORTYPE false dev
  let sn ← readRegD m m.regs.SERIALNUMBER false dev
  let ad ← readRegD m m.regs.MYADDR false dev
  let hw ← readRegD m m.regs.HWVERSION false dev
  return { max_velocity := mv, max_acceleration := ma, max_torque := mt,
           gear_ratio_nominator := g1, gear_ratio_denominator := g2,
           max_winding_energy := mw, max_dumped_energy := md,
           max_regulation_error := mr, max_movement_error := mm,
           min_position := minp, max_position := maxp,
           emergency_deceleration := ed, starting_mode := sm,
           home_position := hp, homing_velocity := hv, homing_mode := hm,
           min_supply_voltage := ms, motor_type := mo, serial_number := sn,
           config_address := ad, hardware_version := hw }

/-- Operation refresh_config (lines 251 to 278): the config cache is
replaced wholesale only when every read succeeded. -/
def refresh_config (m : Motor) (dev : Dev) : Outcome Unit × Motor :=
  match refresh_config_result m dev with
  | .error e => (.err e, m)
  | .ok cf => (.ok (), { m with config := cf })

/-- Discarding the value of an outcome. -/
def Outcome.void : Outcome α → Outcome Unit
  | .ok _ => .ok ()
  | .err e => .err e
  | .hang => .hang

/-- Public operations of the device state model that touch the caches. -/
inductive Op where
  | opGetMode
  | opSetMode (arg : ModeArg)
  | opGetPosition
  | opSetTargetPosition (p : Int) (ig : Bool)
  | opRefreshStatus
  | opRefreshConfig
deriving DecidableEq, Repr

/-- One public call on the motor, returning the outcome and the state
after the call. -/
def runOp (m : Motor) (dev : Dev) : Op → Outcome Unit × Motor
  | .opGetMode => let r := get_mode m dev; (r.1.void, r.2.1)
  | .opSetMode arg => let r := set_mode m dev arg; (r.1.void, r.2.1)
  | .opGetPosition => let r := get_position m dev; (r.1.void, r.2.1)
  | .opSetTargetPosition p ig =>
    let r := set_target_position m dev p ig; (r.1.void, r.2.1)
  | .opRefreshStatus => refresh_status m dev
  | .opRefreshConfig => refresh_config m dev

/-- Well-formed 19-byte read response for a register echo and four data
bytes, with every complement correct. -/
def goodResp (reg : Nat) (data : List Nat) : List Nat :=
  [0x52, 0x52, 0x52, 0x00, 0xff, reg, 0xff ^^^ reg, 0x04, 0xfb]
  ++ interleave data ++ [0xaa, 0xaa]

/-- Concrete descriptor for MODE_REG used in the witnesses. -/
def regMODE : RegDesc := { addr := 2, size := 2, name := "MODE_REG" }

/-- Concrete descriptor for P_SOLL used in the witnesses. -/
def regPSOLL : RegDesc := { addr := 3, size := 4, name := "P_SOLL" }

/-- Concrete descriptor for P_IST used in the witnesses. -/
def regPIST : RegDesc := { addr := 10, size := 4, name := "P_IST" }

/-- Concrete named register descriptors used in the witnesses. -/
def namedRegs0 : NamedRegs where
  MODE_REG := regMODE
  P_SOLL := regPSOLL
  P_IST := regPIST
  V_SOLL := { addr := 5, size := 2, name := "V_SOLL" }
  A_SOLL := { addr := 6, size := 2, name := "A_SOLL" }
  T_SOLL := { addr := 7, size := 2, name := "T_SOLL" }
  GEARF1 := { addr := 14, size := 2, name := "GEARF1" }
  GEARF2 := { addr := 15, size := 2, name := "GEARF2" }
  I2TLIM := { addr := 16, size := 2, name := "I2TLIM" }
  UITLIM := { addr := 18, size := 2, name := "UITLIM" }
  FLWERRMAX := { addr := 22, size := 4, name := "FLWERRMAX" }
  FNCERRMAX := { addr := 24, size := 4, name := "FNCERRMAX" }
  MIN_P_IST := { addr := 28, size := 4, name := "MIN_P_IST" }
  MAX_P_IST := { addr := 30, size := 4, name := "MAX_P_IST" }
  ACC_EMERG := { addr := 32, size := 2, name := "ACC_EMERG" }
  STARTMODE := { addr := 37, size := 2, name := "STARTMODE" }
  P_HOME := { addr := 38, size := 4, name := "P_HOME" }
  V_HOME := { addr := 40, size := 2, name := "V_HOME" }
  HOMEMODE := { addr := 42, size := 2, name := "HOMEMODE" }
  MIN_U_SUP := { addr := 46, size := 2, name := "MIN_U_SUP" }
  MOTORTYPE := { addr := 58, size := 2, name := "MOTORTYPE" }
  SERIALNUMBER := { addr := 59, size := 4, name := "SERIALNUMBER" }
  MYADDR := { addr := 65, size := 1, name := "MYADDR" }
  HWVERSION := { addr := 63, size := 2, name := "HWVERSION" }
  V_IST := { addr := 12, size := 2, name := "V_IST" }
  KVOUT := { addr := 160, size := 2, name := "KVOUT" }
  I2T := { addr := 17, size := 4, name := "I2T" }
  UIT := { addr := 19, size := 4, name := "UIT" }
  FLWERR := { addr := 20, size := 4, name := "FLWERR" }
  FNCERR := { addr := 26, size := 4, name := "FNCERR" }
  ERR_STAT := { addr := 35, size := 2, name := "ERR_STAT" }
  CNTRL_BITS := { addr := 36, size := 2, name := "CNTRL_BITS" }
  U_SUPPLY := { addr := 161, size := 2, name := "U_SUPPLY" }

/-- Concrete config cache with both position limits zero. -/
def config0 : Config where
  max_velocity := 0
  max_acceleration := 0
  max_torque := 0
  gear_ratio_nominator := 0
  gear_ratio_denominator := 0
  max_winding_energy := 0
  max_dumped_energy := 0
  max_regulation_error := 0
  max_movement_error := 0
  min_position := 0
  max_position := 0
  emergency_deceleration := 0
  starting_mode := .PASSIVE
  home_position := 0
  homing_velocity := 0
  homing_mode := 0
  min_supply_voltage := 0
  motor_type := 0
  serial_number := 0
  config_address := 0
  hardware_version := 0

/-- Concrete status cache with the cached mode PASSIVE. -/
def status0 : Status where
  operating_mode := .PASSIVE
  target_position := 0
  actual_position := 0
  actual_velocity := 0
  load_factor := 0
  winding_energy := 0
  dumped_energy := 0
  regulation_error := 0
  movement_error := 0
  error_flags := 0
  control := 0
  supply_voltage := 0

/-- Concrete motor state used in the witnesses. -/
def motor0 : Motor where
  address := 0
  table := [regMODE, regPSOLL, regPIST]
  regs := namedRegs0
  config := config0
  status := status0

/-- Device oracle answering every read with the data bytes 1 0 0 0 and
every write with the correct acknowledgement. -/
def devGood : Dev where
  resp := fun reg => goodResp reg [1, 0, 0, 0]
  ack := [0x11, 0x11, 0x11]

/-- Concrete motor state whose cached mode is POSITION. -/
def motorPos : Motor :=
  { motor0 with status := { status0 with operating_mode := .POSITION } }

/-- Concrete motor state whose config limits are min -1000 and max 1000. -/
def motorBounded : Motor :=
  { motor0 with config := { config0 with min_position := -1000, max_position := 1000 } }

/-- Success clause of the mode-cache invariant: after a successful
operation, the cached operating mode equals the last mode value read
from the device (get_mode, refresh_status) or written to it (set_mode),
and the operations that do not touch the mode leave it (or, for
refresh_config, the whole status cache) as it was. -/
def modeInv (m : Motor) (dev : Dev) (op : Op) (m2 : Motor) : Prop :=
  match op with
  | .opGetMode =>
    ∃ v md, readRegD m m.regs.MODE_REG false dev = .ok v ∧
      OperatingMode.ofInt? v = some md ∧ m2.status.operating_mode = md
  | .opSetMode arg =>
    ∃ md, normalizeMode arg = .ok md ∧ m2.status.operating_mode = md
  | .opGetPosition => m2.status.operating_mode = m.status.operating_mode
  | .opSetTargetPosition _ _ => m2.status.operating_mode = m.status.operating_mode
  | .opRefreshStatus =>
    ∃ v md, readRegD m m.regs.MODE_REG false dev = .ok v ∧
      OperatingMode.ofInt? v = some md ∧ m2.status.operating_mode = md
  | .opRefreshConfig => m2.status = m.status

/-- C1: claimed that an empty or short (fewer than 19 bytes) transport
response makes the low-level read raise InvalidFrame. The code does not
check the response length: Python zip truncates the masked comparison to
the length of the response and the slice response[9:17] of a short
response is empty, so an empty response (the typical read timeout)
passes every check and read returns empty data; through read_register
the empty data even decodes to the integer 0. -/
theorem C1_short_response_accepted :
    lowRead 0 3 [] = (.ok [], [readRequest 0 3]) ∧
    lowRead 0 3 [0x52, 0x52, 0x52] = (.ok [], [readRequest 0 3]) ∧
    read_register [regPSOLL] 0 (.byAddr 3) false
        { resp := fun _ => [], ack := [0x11, 0x11, 0x11] }
      = (.ok 0, [readRequest 0 3]) := by
  decide

/-- C2: claimed that set_mode into POSITION with a non-trivial limit
window reads the position and gates on it. On the code the window case
never reaches the bounds check: set_mode already holds the non-reentrant
status lock when it calls get_position, which re-acquires that lock, so
the call blocks forever (hang), emits no frame and leaves the state
untouched. With both limits zero the bounds check is indeed skipped (no
position read occurs), but the subsequent MODE_REG write raises
TypeError because write_register passes the unresolved Register member
to the low-level write. -/
theorem C2_set_mode_position_eval :
    set_mode motorBounded devGood (.mode .POSITION) = (.hang, motorBounded, []) ∧
    set_mode motor0 devGood (.mode .POSITION) = (.err .typeError, motor0, []) := by
  decide

/-- C3: claimed that write_register delegates the resolved register and
encoded bytes to the low-level write for every accepted identifier. The
encoding checks behave as claimed (valueOutOfRange for an integer that
needs more bytes than the descriptor size, sizeMismatch for raw bytes of
the wrong length) and a numeric address identifier works, but a name
string or a resolved Register member is passed unresolved to the
low-level write (line 184), whose range comparison raises TypeError
before any frame is emitted. -/
theorem C3_write_register_eval :
    write_register [regMODE] 0 (.byAddr 2) (.int 65536) [0x11, 0x11, 0x11]
      = (.error .valueOutOfRange, []) ∧
    write_register [regMODE] 0 (.byAddr 2) (.bytes [1]) [0x11, 0x11, 0x11]
      = (.error .sizeMismatch, []) ∧
    write_register [regMODE] 0 (.byAddr 2) (.int 5) [0x11, 0x11, 0x11]
      = (.ok (), [writeFrame 0 2 [5, 0]]) ∧
    write_register [regMODE] 0 (.byName "MODE_REG") (.int 5) [0x11, 0x11, 0x11]
      = (.error .typeError, []) ∧
    write_register [regMODE] 0 (.byHandle regMODE) (.int 5) [0x11, 0x11, 0x11]
      = (.error .typeError, []) := by
  decide

/-- C6: claimed that set_target_position rejects with wrongMode when the
cached mode is not POSITION (true, with no frame emitted), and otherwise
writes the register and updates the cached target. On the code the
accepting path never completes: the P_SOLL write goes through
write_register, which passes the unresolved Register member to the
low-level write and raises TypeError, so no frame is emitted and the
cache is left unchanged. -/
theorem C6_set_target_position_eval :
    set_target_position motor0 devGood 12345 false = (.err .wrongMode, motor0, []) ∧
    set_target_position motorPos devGood 12345 false = (.err .typeError, motorPos, []) ∧
    set_target_position motor0 devGood 12345 true = (.err .typeError, motor0, []) := by
  decide

/-- C9: when the normalised target mode equals the cached operating
mode, set_mode returns successfully at once, emits no frame on the
transport and leaves the whole motor state (both caches) unchanged. -/
theorem C9_set_mode_fast_path (m : Motor) (dev : Dev) (arg : ModeArg)
    (mode : OperatingMode) (hn : normalizeMode arg = .ok mode)
    (he : mode = m.status.operating_mode) :
    set_mode m dev arg = (.ok (), m, []) := by
  unfold set_mode
  rw [hn]
  simp [he]

/-- Witness for C9 at a concrete motor and argument. -/
theorem C9_set_mode_fast_path_witness :
    set_mode motor0 devGood (.mode .PASSIVE) = (.ok (), motor0, []) :=
  C9_set_mode_fast_path motor0 devGood (.mode .PASSIVE) .PASSIVE (by decide) (by decide)

/-- Numeric mode lookup fails above 25. -/
theorem ofNat?_gt_25 (n : Nat) (h : 25 < n) : OperatingMode.ofNat? n = none := by
  obtain ⟨k, rfl⟩ : ∃ k, n = k + 26 := ⟨n - 26, by omega⟩
  rfl

/-- Numeric mode lookup succeeds up to 25 and returns the member with
that value. -/
theorem ofNat?_le_25 (n : Nat) (h : n ≤ 25) :
    ∃ md : OperatingMode, OperatingMode.ofNat? n = some md ∧ md.val = n := by
  interval_cases n <;> exact ⟨_, rfl, rfl⟩

/-- C10: set_mode accepts an OperatingMode value, an integer, raw
little-endian bytes, or a name string upper-cased before lookup; any
argument whose normalisation fails (integer or bytes value outside 0 to
25, unknown name) makes set_mode fail with that error before any
transport frame is emitted and with the motor state unchanged. -/
theorem C10_set_mode_argument_validation :
    (∀ (m : Motor) (dev : Dev) (arg : ModeArg) (e : MacError),
      normalizeMode arg = .error e → set_mode m dev arg = (.err e, m, [])) ∧
    (∀ i : Int, i < 0 ∨ 25 < i → normalizeMode (.int i) = .error .unknownMode) ∧
    (∀ i : Int, 0 ≤ i → i ≤ 25 →
      ∃ md : OperatingMode, normalizeMode (.int i) = .ok md ∧ (md.val : Int) = i) ∧
    (∀ bs : List Nat, 25 < fromLEBytes bs →
      normalizeMode (.bytes bs) = .error .unknownMode) ∧
    (∀ bs : List Nat, fromLEBytes bs ≤ 25 →
      ∃ md : OperatingMode, normalizeMode (.bytes bs) = .ok md ∧
        md.val = fromLEBytes bs) ∧
    (∀ s : String, OperatingMode.ofName? (pyUpper s) = none →
      normalizeMode (.str s) = .error .unknownMode) ∧
    (∀ (s : String) (md : OperatingMode),
      OperatingMode.ofName? (pyUpper s) = some md →
      normalizeMode (.str s) = .ok md) ∧
    (normalizeMode (.str "position") = .ok .POSITION) ∧
    (∀ md : OperatingMode, normalizeMode (.mode md) = .ok md) := by
  refine ⟨?_, ?_, ?_, ?_, ?_, ?_, ?_, by decide, fun md => rfl⟩
  · intro m dev arg e h
    unfold set_mode
    rw [h]
  · intro i hi
    simp only [normalizeMode, OperatingMode.ofInt?]
    rcases hi with hi | hi
    · rw [if_pos hi]
    · rw [if_neg (by omega), ofNat?_gt_25 i.toNat (by omega)]
  · intro i h0 h25
    obtain ⟨md, hmd, hval⟩ := ofNat?_le_25 i.toNat (by omega)
    refine ⟨md, ?_, ?_⟩
    · simp only [normalizeMode, OperatingMode.ofInt?]
      rw [if_neg (by omega), hmd]
    · rw [hval]
      omega
  · intro bs h
    simp only [normalizeMode]
    rw [ofNat?_gt_25 _ h]
  · intro bs h
    obtain ⟨md, hmd, hval⟩ := ofNat?_le_25 _ h
    refine ⟨md, ?_, hval⟩
    simp only [normalizeMode]
    rw [hmd]
  · intro s h
    simp only [normalizeMode]
    rw [h]
  · intro s md h
    simp only [normalizeMode]
    rw [h]

/-- Witness for C10 at concrete arguments: the integer 26 is rejected
before any transport activity and the lower-case name brake is accepted
case-insensitively. -/
theorem C10_set_mode_argument_validation_witness :
    normalizeMode (.int 26) = .error .unknownMode ∧
    set_mode motor0 devGood (.int 26) = (.err .unknownMode, motor0, []) ∧
    normalizeMode (.str "brake") = .ok .BRAKE := by
  have h26 : normalizeMode (.int 26) = .error .unknownMode :=
    C10_set_mode_argument_validation.2.1 26 (Or.inr (by norm_num))
  refine ⟨h26, C10_set_mode_argument_validation.1 motor0 devGood (.int 26) .unknownMode h26, ?_⟩
  exact C10_set_mode_argument_validation.2.2.2.2.2.2.1 "brake" .BRAKE (by decide)

/-- Interleaving equals mapping each byte to the pair of itself and its
complement. -/
theorem interleave_eq_bind (data : List Nat) :
    interleave data = data.flatMap (fun b => [b, 0xff ^^^ b]) := by
  induction data with
  | nil => rfl
  | cons b rest ih => simp [interleave, ih]

/-- Interleaving doubles the length. -/
theorem interleave_length (data : List Nat) :
    (interleave data).length = 2 * data.length := by
  induction data with
  | nil => rfl
  | cons b rest ih =>
    simp [interleave, ih]
    omega

/-- C8: for a register address within 0 to 255, the low-level write
rejects an odd payload with oddPayload and an even payload longer than
255 bytes with payloadTooLarge, both before emitting anything;
otherwise, whatever the acknowledgement, the single emitted frame is
exactly the three 0x52 markers, address and complement, register and
complement, length and complement, each data byte followed by its
complement, and the 0xAA 0xAA terminator. The enumeration in the claim
is exact, but its total of 9 + 2N bytes contradicts its own enumeration:
the frame is 9 header bytes plus 2N data bytes plus the 2 terminator
bytes, 11 + 2N in total, as the last conjunct states. -/
theorem C8_low_level_write (address reg_num : Nat) (data ack : List Nat)
    (hreg : reg_num ≤ 255) :
    (data.length % 2 = 1 →
      lowWrite address reg_num data ack = (.error .oddPayload, [])) ∧
    (data.length % 2 = 0 → 255 < data.length →
      lowWrite address reg_num data ack = (.error .payloadTooLarge, [])) ∧
    (data.length % 2 = 0 → data.length ≤ 255 →
      (lowWrite address reg_num data ack).2 = [writeFrame address reg_num data]) ∧
    (writeFrame address reg_num data =
      [0x52, 0x52, 0x52, address, 0xff ^^^ address, reg_num, 0xff ^^^ reg_num,
       data.length, 0xff ^^^ data.length]
      ++ data.flatMap (fun b => [b, 0xff ^^^ b]) ++ [0xaa, 0xaa]) ∧
    ((writeFrame address reg_num data).length = 11 + 2 * data.length) := by
  refine ⟨?_, ?_, ?_, ?_, ?_⟩
  · intro h
    have h1 : ¬ 255 < reg_num := by omega
    have h2 : data.length % 2 ≠ 0 := by omega
    unfold lowWrite
    rw [if_neg h1, if_pos h2]
  · intro h h2
    have h1 : ¬ 255 < reg_num := by omega
    have h3 : ¬ data.length % 2 ≠ 0 := by omega
    unfold lowWrite
    rw [if_neg h1, if_neg h3, if_pos h2]
  · intro h h2
    have h1 : ¬ 255 < reg_num := by omega
    have h3 : ¬ data.length % 2 ≠ 0 := by omega
    have h4 : ¬ 255 < data.length := by omega
    unfold lowWrite
    rw [if_neg h1, if_neg h3, if_neg h4]
    split <;> rfl
  · unfold writeFrame
    rw [interleave_eq_bind]
  · unfold writeFrame
    simp [interleave_length]
    omega

/-- Witness for C8 at a concrete frame: an even two-byte payload is
emitted as the documented 13-byte frame and an odd payload is rejected. -/
theorem C8_low_level_write_witness :
    (lowWrite 7 3 [1, 2] [0x11, 0x11, 0x11]).2 = [writeFrame 7 3 [1, 2]] ∧
    lowWrite 7 3 [1, 2, 3] [0x11, 0x11, 0x11] = (.error .oddPayload, []) ∧
    (writeFrame 7 3 [1, 2]).length = 11 + 2 * 2 := by
  refine ⟨(C8_low_level_write 7 3 [1, 2] [0x11, 0x11, 0x11] (by decide)).2.2.1
      (by decide) (by decide),
    (C8_low_level_write 7 3 [1, 2, 3] [0x11, 0x11, 0x11] (by decide)).1 (by decide),
    ?_⟩
  have h := (C8_low_level_write 7 3 [1, 2] [0x11, 0x11, 0x11] (by decide)).2.2.2.2
  simpa using h

/-- Counterexample for the byte total stated in C8: for the two-byte
payload 1 2 the emitted frame has 15 bytes, not 9 + 2N = 13; the total
is 11 + 2N because the enumerated bytes comprise the 9-byte header, the
2N interleaved data bytes and the 2 terminator bytes. -/
theorem C8_frame_length_counterexample :
    ¬ ((writeFrame 7 3 [1, 2]).length = 9 + 2 * (List.length [1, 2])) ∧
    (writeFrame 7 3 [1, 2]).length = 11 + 2 * (List.length [1, 2]) := by
  decide

/-- C7: a read of register address 0x03 emits the 9-byte read command
for that address; fed the well-formed 19-byte response echoing register
0x03 with data bytes 0x10 0x27 0x00 0x00 and correct complements,
read_register with a 4-byte unsigned descriptor returns 10000. In
general, whenever the identifier resolves and the response validates to
data bytes d, read_register returns d truncated to the declared size and
decoded as a little-endian integer with the requested signedness. -/
theorem C7_read_register_round_trip :
    (readRequest 0 3 = [0x50, 0x50, 0x50, 0x00, 0xff, 0x03, 0xfc, 0xaa, 0xaa]) ∧
    (read_register [regPSOLL] 0 (.byAddr 3) false
        { resp := fun _ => goodResp 3 [0x10, 0x27, 0x00, 0x00], ack := [0x11, 0x11, 0x11] }
      = (.ok 10000, [readRequest 0 3])) ∧
    (∀ (table : List RegDesc) (address : Nat) (register : RegId) (signed : Bool)
        (dev : Dev) (reg : RegDesc) (d : List Nat),
      register_from table register = .ok reg →
      reg.addr ≤ 255 →
      decodeResp reg.addr (dev.resp reg.addr) = .ok d →
      read_register table address register signed dev =
        (.ok (intFromBytes (d.take reg.size) signed),
         [readRequest address reg.addr])) := by
  refine ⟨by decide, by decide, ?_⟩
  intro table address register signed dev reg d hreg haddr hdec
  have hn : ¬ 255 < reg.addr := by omega
  unfold read_register
  rw [hreg]
  simp only [lowRead, if_neg hn, hdec]

/-- Witness for C7 through the general part: a signed 4-byte read of
all-0xFF data bytes decodes to the twos complement value. -/
theorem C7_read_register_round_trip_witness :
    read_register [regPIST] 7 (.byAddr 10) true
        { resp := fun _ => goodResp 10 [0xff, 0xff, 0xff, 0xff], ack := [0x11, 0x11, 0x11] }
      = (.ok (intFromBytes (List.take 4 [0xff, 0xff, 0xff, 0xff]) true),
         [readRequest 7 10]) := by
  have h := C7_read_register_round_trip.2.2 [regPIST] 7 (.byAddr 10) true
      { resp := fun _ => goodResp 10 [0xff, 0xff, 0xff, 0xff], ack := [0x11, 0x11, 0x11] }
      regPIST [0xff, 0xff, 0xff, 0xff] (by decide) (by decide) (by decide)
  simpa [regPIST] using h

/-- Bytes below 256 are fixed by the 0xff mask. -/
theorem and255_eq (b : Nat) (h : b < 256) : b &&& 255 = b := by
  have h2 := Nat.and_pow_two_sub_one_eq_mod b 8
  norm_num at h2
  rw [h2, Nat.mod_eq_of_lt h]

/-- Complementing a byte below 256 stays below 256. -/
theorem xor255_lt (b : Nat) (h : b < 256) : 255 ^^^ b < 256 := by
  have h2 := @Nat.xor_lt_two_pow 255 b 8 (by norm_num) (by omega)
  omega

/-- C4: full characterisation of the decoding of a 19-byte response with
register echo reg. The three masked comparisons run in order, each
failing with its own error: the frame markers, length field and
terminator give invalidFrame; the address field, expected byte 0x00 with
complement 0xFF, gives invalidAddress; the register echo, expected reg
with its complement, gives invalidRegister. Then each of the four
trailing complement bytes must be 0xFF XOR its paired data byte, else
invalidComplement, and on success exactly the four data bytes at the
alternating positions 9, 11, 13 and 15 are returned. -/
theorem C4_decode_read_response
    (reg r0 r1 r2 r3 r4 r5 r6 r7 r8 r9 r10 r11 r12 r13 r14 r15 r16 r17 r18 : Nat)
    (hreg : reg < 256)
    (h0 : r0 < 256) (h1 : r1 < 256) (h2 : r2 < 256) (h3 : r3 < 256) (h4 : r4 < 256)
    (h5 : r5 < 256) (h6 : r6 < 256) (h7 : r7 < 256) (h8 : r8 < 256)
    (h17 : r17 < 256) (h18 : r18 < 256) :
    (¬ (r0 = 0x52 ∧ r1 = 0x52 ∧ r2 = 0x52 ∧ r7 = 0x04 ∧ r8 = 0xfb ∧ r17 = 0xaa ∧ r18 = 0xaa) →
      decodeResp reg [r0, r1, r2, r3, r4, r5, r6, r7, r8, r9, r10, r11, r12, r13, r14, r15, r16, r17, r18] = .error .invalidFrame) ∧
    ((r0 = 0x52 ∧ r1 = 0x52 ∧ r2 = 0x52 ∧ r7 = 0x04 ∧ r8 = 0xfb ∧ r17 = 0xaa ∧ r18 = 0xaa) → ¬ (r3 = 0x00 ∧ r4 = 0xff) →
      decodeResp reg [r0, r1, r2, r3, r4, r5, r6, r7, r8, r9, r10, r11, r12, r13, r14, r15, r16, r17, r18] = .error .invalidAddress) ∧
    ((r0 = 0x52 ∧ r1 = 0x52 ∧ r2 = 0x52 ∧ r7 = 0x04 ∧ r8 = 0xfb ∧ r17 = 0xaa ∧ r18 = 0xaa) → (r3 = 0x00 ∧ r4 = 0xff) → ¬ (r5 = reg ∧ r6 = 0xff ^^^ reg) →
      decodeResp reg [r0, r1, r2, r3, r4, r5, r6, r7, r8, r9, r10, r11, r12, r13, r14, r15, r16, r17, r18] = .error .invalidRegister) ∧
    ((r0 = 0x52 ∧ r1 = 0x52 ∧ r2 = 0x52 ∧ r7 = 0x04 ∧ r8 = 0xfb ∧ r17 = 0xaa ∧ r18 = 0xaa) → (r3 = 0x00 ∧ r4 = 0xff) → (r5 = reg ∧ r6 = 0xff ^^^ reg) → ¬ (r10 = 0xff ^^^ r9 ∧ r12 = 0xff ^^^ r11 ∧ r14 = 0xff ^^^ r13 ∧ r16 = 0xff ^^^ r15) →
      decodeResp reg [r0, r1, r2, r3, r4, r5, r6, r7, r8, r9, r10, r11, r12, r13, r14, r15, r16, r17, r18] = .error .invalidComplement) ∧
    ((r0 = 0x52 ∧ r1 = 0x52 ∧ r2 = 0x52 ∧ r7 = 0x04 ∧ r8 = 0xfb ∧ r17 = 0xaa ∧ r18 = 0xaa) → (r3 = 0x00 ∧ r4 = 0xff) → (r5 = reg ∧ r6 = 0xff ^^^ reg) → (r10 = 0xff ^^^ r9 ∧ r12 = 0xff ^^^ r11 ∧ r14 = 0xff ^^^ r13 ∧ r16 = 0xff ^^^ r15) →
      decodeResp reg [r0, r1, r2, r3, r4, r5, r6, r7, r8, r9, r10, r11, r12, r13, r14, r15, r16, r17, r18] = .ok [r9, r11, r13, r15]) := by
  have hframe : maskedEq [r0, r1, r2, r3, r4, r5, r6, r7, r8, r9, r10, r11, r12, r13, r14, r15, r16, r17, r18] frame_mask (expectedResp reg) = true ↔
      (r0 = 0x52 ∧ r1 = 0x52 ∧ r2 = 0x52 ∧ r7 = 0x04 ∧ r8 = 0xfb ∧ r17 = 0xaa ∧ r18 = 0xaa) := by
    simp [maskedEq, frame_mask, expectedResp, and255_eq _ h0, and255_eq _ h1,
      and255_eq _ h2, and255_eq _ h7, and255_eq _ h8, and255_eq _ h17, and255_eq _ h18,
      Nat.and_zero, (by decide : (82:Nat) &&& 255 = 82), (by decide : (4:Nat) &&& 255 = 4),
      (by decide : (251:Nat) &&& 255 = 251), (by decide : (170:Nat) &&& 255 = 170)]
  have haddr : maskedEq [r0, r1, r2, r3, r4, r5, r6, r7, r8, r9, r10, r11, r12, r13, r14, r15, r16, r17, r18] address_mask (expectedResp reg) = true ↔
      (r3 = 0x00 ∧ r4 = 0xff) := by
    simp [maskedEq, address_mask, expectedResp, and255_eq _ h3, and255_eq _ h4,
      Nat.and_zero, (by decide : (0:Nat) &&& 255 = 0), (by decide : (255:Nat) &&& 255 = 255)]
  have hregm : maskedEq [r0, r1, r2, r3, r4, r5, r6, r7, r8, r9, r10, r11, r12, r13, r14, r15, r16, r17, r18] register_mask (expectedResp reg) = true ↔
      (r5 = reg ∧ r6 = 0xff ^^^ reg) := by
    simp [maskedEq, register_mask, expectedResp, and255_eq _ h5, and255_eq _ h6,
      and255_eq reg hreg, and255_eq _ (xor255_lt reg hreg), Nat.and_zero]
  refine ⟨?_, ?_, ?_, ?_, ?_⟩
  · intro hnf
    unfold decodeResp
    rw [if_pos (fun h => hnf (hframe.mp h))]
  · intro hf hna
    unfold decodeResp
    rw [if_neg (not_not_intro (hframe.mpr hf)), if_pos (fun h => hna (haddr.mp h))]
  · intro hf ha hnr
    unfold decodeResp
    rw [if_neg (not_not_intro (hframe.mpr hf)), if_neg (not_not_intro (haddr.mpr ha)),
      if_pos (fun h => hnr (hregm.mp h))]
  · intro hf ha hr hnc
    unfold decodeResp
    rw [if_neg (not_not_intro (hframe.mpr hf)), if_neg (not_not_intro (haddr.mpr ha)),
      if_neg (not_not_intro (hregm.mpr hr))]
    simp only [List.drop_succ_cons, List.drop_zero, List.take_succ_cons, List.take_zero,
      evensOf, oddsOf, List.map]
    rw [if_pos (fun h => hnc (by simpa using h))]
  · intro hf ha hr hc
    unfold decodeResp
    rw [if_neg (not_not_intro (hframe.mpr hf)), if_neg (not_not_intro (haddr.mpr ha)),
      if_neg (not_not_intro (hregm.mpr hr))]
    simp only [List.drop_succ_cons, List.drop_zero, List.take_succ_cons, List.take_zero,
      evensOf, oddsOf, List.map]
    rw [if_neg (not_not_intro (by simp [hc.1, hc.2.1, hc.2.2.1, hc.2.2.2]))]

/-- Witness for C4 at concrete frames: one register-echo mismatch and
one fully valid frame for register 3. -/
theorem C4_decode_read_response_witness :
    decodeResp 3 [0x52, 0x52, 0x52, 0x00, 0xff, 0x07, 0xf8, 0x04, 0xfb,
      1, 0xfe, 0, 0xff, 0, 0xff, 0, 0xff, 0xaa, 0xaa] = .error .invalidRegister ∧
    decodeResp 3 [0x52, 0x52, 0x52, 0x00, 0xff, 0x03, 0xfc, 0x04, 0xfb,
      1, 0xfe, 0, 0xff, 0, 0xff, 0, 0xff, 0xaa, 0xaa] = .ok [1, 0, 0, 0] := by
  constructor
  · exact (C4_decode_read_response 3 0x52 0x52 0x52 0x00 0xff 0x07 0xf8 0x04 0xfb
      1 0xfe 0 0xff 0 0xff 0 0xff 0xaa 0xaa (by norm_num) (by norm_num) (by norm_num)
      (by norm_num) (by norm_num) (by norm_num) (by norm_num) (by norm_num) (by norm_num)
      (by norm_num) (by norm_num) (by norm_num)).2.2.1
      (by norm_num) (by norm_num) (by decide)
  · exact (C4_decode_read_response 3 0x52 0x52 0x52 0x00 0xff 0x03 0xfc 0x04 0xfb
      1 0xfe 0 0xff 0 0xff 0 0xff 0xaa 0xaa (by norm_num) (by norm_num) (by norm_num)
      (by norm_num) (by norm_num) (by norm_num) (by norm_num) (by norm_num) (by norm_num)
      (by norm_num) (by norm_num) (by norm_num)).2.2.2.2
      (by norm_num) (by norm_num) (by decide) (by decide)

/-- Inversion of a successful Except bind. -/
theorem exceptBind_ok {α β : Type} (x : Except MacError α) (f : α → Except MacError β)
    (b : β) (h : x >>= f = .ok b) : ∃ a, x = .ok a ∧ f a = .ok b := by
  cases x with
  | error e => simp [Bind.bind, Except.bind] at h
  | ok a => exact ⟨a, rfl, by simpa [Bind.bind, Except.bind] using h⟩

/-- Binding a success applies the continuation. -/
theorem ok_bind {α β : Type} (a : α) (f : α → Except MacError β) :
    (Except.ok a : Except MacError α) >>= f = f a := rfl

/-- Binding a failure propagates the failure. -/
theorem error_bind {α β : Type} (e : MacError) (f : α → Except MacError β) :
    (Except.error e : Except MacError α) >>= f = Except.error e := rfl

/-- A successful refresh_status read the operating mode from MODE_REG
and stored exactly its decoded value in the new status. -/
theorem refresh_status_result_mode (m : Motor) (dev : Dev) (st : Status)
    (h : refresh_status_result m dev = .ok st) :
    ∃ v md, readRegD m m.regs.MODE_REG false dev = .ok v ∧
      OperatingMode.ofInt? v = some md ∧ st.operating_mode = md := by
  unfold refresh_status_result at h
  obtain ⟨v, hv, h⟩ := exceptBind_ok _ _ _ h
  cases h2 : OperatingMode.ofInt? v with
  | none =>
    rw [h2] at h
    simp only [error_bind] at h
    exact absurd h (by simp)
  | some md =>
    rw [h2] at h
    simp only [ok_bind] at h
    refine ⟨v, md, hv, h2, ?_⟩
    obtain ⟨_, _, h⟩ := exceptBind_ok _ _ _ h
    obtain ⟨_, _, h⟩ := exceptBind_ok _ _ _ h
    obtain ⟨_, _, h⟩ := exceptBind_ok _ _ _ h
    obtain ⟨_, _, h⟩ := exceptBind_ok _ _ _ h
    obtain ⟨_, _, h⟩ := exceptBind_ok _ _ _ h
    obtain ⟨_, _, h⟩ := exceptBind_ok _ _ _ h
    obtain ⟨_, _, h⟩ := exceptBind_ok _ _ _ h
    obtain ⟨_, _, h⟩ := exceptBind_ok _ _ _ h
    obtain ⟨_, _, h⟩ := exceptBind_ok _ _ _ h
    obtain ⟨_, _, h⟩ := exceptBind_ok _ _ _ h
    obtain ⟨_, _, h⟩ := exceptBind_ok _ _ _ h
    simp only [pure, Except.pure, Except.ok.injEq] at h
    rw [← h]

/-- C5: invariant of the cached operating mode over every public
operation: an operation that fails (or blocks on the non-reentrant
lock) leaves the whole motor state, both caches included, exactly as it
was; a successful operation leaves the cached operating mode equal to
the value just read from MODE_REG (get_mode, refresh_status), to the
normalised target of set_mode, or unchanged for the operations that do
not touch it (and refresh_config leaves the whole status cache
unchanged). -/
theorem C5_mode_cache_invariant (m : Motor) (dev : Dev) (op : Op) :
    (∀ e : MacError, (runOp m dev op).1 = .err e → (runOp m dev op).2 = m) ∧
    ((runOp m dev op).1 = .hang → (runOp m dev op).2 = m) ∧
    ((runOp m dev op).1 = .ok () → modeInv m dev op (runOp m dev op).2) := by
  cases op with
  | opGetMode =>
    rcases hrr : read_register m.table m.address (.byHandle m.regs.MODE_REG) false dev
      with ⟨res, tr⟩
    cases res with
    | error e =>
      have hrun : runOp m dev Op.opGetMode = (.err e, m) := by
        simp [runOp, get_mode, hrr, Outcome.void]
      rw [hrun]
      exact ⟨fun _ _ => rfl, fun _ => rfl, fun h => Outcome.noConfusion h⟩
    | ok v =>
      cases hv : OperatingMode.ofInt? v with
      | none =>
        have hrun : runOp m dev Op.opGetMode = (.err .unknownMode, m) := by
          simp [runOp, get_mode, hrr, hv, Outcome.void]
        rw [hrun]
        exact ⟨fun _ _ => rfl, fun _ => rfl, fun h => Outcome.noConfusion h⟩
      | some md =>
        have hrun : runOp m dev Op.opGetMode
            = (.ok (), { m with status := { m.status with operating_mode := md } }) := by
          simp [runOp, get_mode, hrr, hv, Outcome.void]
        rw [hrun]
        refine ⟨fun _ h => Outcome.noConfusion h, fun h => Outcome.noConfusion h,
          fun _ => ?_⟩
        simp only [modeInv]
        exact ⟨v, md, by simp [readRegD, hrr], hv, rfl⟩
  | opSetMode arg =>
    cases hn : normalizeMode arg with
    | error e =>
      have hrun : runOp m dev (Op.opSetMode arg) = (.err e, m) := by
        simp [runOp, set_mode, hn, Outcome.void]
      rw [hrun]
      exact ⟨fun _ _ => rfl, fun _ => rfl, fun h => Outcome.noConfusion h⟩
    | ok mode =>
      by_cases hfast : mode = m.status.operating_mode
      · have hrun : runOp m dev (Op.opSetMode arg) = (.ok (), m) := by
          simp [runOp, set_mode, hn, if_pos hfast, Outcome.void]
        rw [hrun]
        refine ⟨fun _ h => Outcome.noConfusion h, fun h => Outcome.noConfusion h,
          fun _ => ?_⟩
        simp only [modeInv]
        exact ⟨mode, hn, hfast.symm⟩
      · by_cases hpos : mode = OperatingMode.POSITION ∧
            (m.config.min_position ≠ 0 ∨ m.config.max_position ≠ 0)
        · have hgp : get_position_held { config := true, status := true } m dev
              = (.hang, m, []) := rfl
          have hrun : runOp m dev (Op.opSetMode arg) = (.hang, m) := by
            simp [runOp, set_mode, hn, if_neg hfast, if_pos hpos, hgp, Outcome.void]
          rw [hrun]
          exact ⟨fun _ h => Outcome.noConfusion h, fun _ => rfl,
            fun h => Outcome.noConfusion h⟩
        · rcases hw : write_register m.table m.address (.byHandle m.regs.MODE_REG)
              (.int (mode.val : Int)) dev.ack with ⟨wres, wtr⟩
          cases wres with
          | error e =>
            have hrun : runOp m dev (Op.opSetMode arg) = (.err e, m) := by
              simp [runOp, set_mode, hn, if_neg hfast, if_neg hpos, set_mode_commit,
                hw, Outcome.void]
            rw [hrun]
            exact ⟨fun _ _ => rfl, fun _ => rfl, fun h => Outcome.noConfusion h⟩
          | ok u =>
            have hrun : runOp m dev (Op.opSetMode arg)
                = (.ok (), { m with status := { m.status with operating_mode := mode } }) := by
              simp [runOp, set_mode, hn, if_neg hfast, if_neg hpos, set_mode_commit,
                hw, Outcome.void]
            rw [hrun]
            refine ⟨fun _ h => Outcome.noConfusion h, fun h => Outcome.noConfusion h,
              fun _ => ?_⟩
            simp only [modeInv]
            exact ⟨mode, hn, rfl⟩
  | opGetPosition =>
    rcases hrr : read_register m.table m.address (.byHandle m.regs.P_IST) true dev
      with ⟨res, tr⟩
    cases res with
    | error e =>
      have hrun : runOp m dev Op.opGetPosition = (.err e, m) := by
        simp [runOp, get_position, get_position_held, hrr, Outcome.void]
      rw [hrun]
      exact ⟨fun _ _ => rfl, fun _ => rfl, fun h => Outcome.noConfusion h⟩
    | ok pos =>
      have hrun : runOp m dev Op.opGetPosition
          = (.ok (), { m with status := { m.status with actual_position := pos } }) := by
        simp [runOp, get_position, get_position_held, hrr, Outcome.void]
      rw [hrun]
      exact ⟨fun _ h => Outcome.noConfusion h, fun h => Outcome.noConfusion h,
        fun _ => rfl⟩
  | opSetTargetPosition p ig =>
    by_cases hg : ig = false ∧ ¬ (m.status.operating_mode = OperatingMode.POSITION)
    · have hrun : runOp m dev (Op.opSetTargetPosition p ig) = (.err .wrongMode, m) := by
        simp [runOp, set_target_position, if_pos hg, Outcome.void]
      rw [hrun]
      exact ⟨fun _ _ => rfl, fun _ => rfl, fun h => Outcome.noConfusion h⟩
    · rcases hw : write_register m.table m.address (.byHandle m.regs.P_SOLL)
          (.int p) dev.ack with ⟨wres, wtr⟩
      cases wres with
      | error e =>
        have hrun : runOp m dev (Op.opSetTargetPosition p ig) = (.err e, m) := by
          simp [runOp, set_target_position, if_neg hg, hw, Outcome.void]
        rw [hrun]
        exact ⟨fun _ _ => rfl, fun _ => rfl, fun h => Outcome.noConfusion h⟩
      | ok u =>
        have hrun : runOp m dev (Op.opSetTargetPosition p ig)
            = (.ok (), { m with status := { m.status with target_position := p } }) := by
          simp [runOp, set_target_position, if_neg hg, hw, Outcome.void]
        rw [hrun]
        exact ⟨fun _ h => Outcome.noConfusion h, fun h => Outcome.noConfusion h,
          fun _ => rfl⟩
  | opRefreshStatus =>
    cases hres : refresh_status_result m dev with
    | error e =>
      have hrun : runOp m dev Op.opRefreshStatus = (.err e, m) := by
        simp [runOp, refresh_status, hres]
      rw [hrun]
      exact ⟨fun _ _ => rfl, fun _ => rfl, fun h => Outcome.noConfusion h⟩
    | ok st =>
      have hrun : runOp m dev Op.opRefreshStatus = (.ok (), { m with status := st }) := by
        simp [runOp, refresh_status, hres]
      rw [hrun]
      refine ⟨fun _ h => Outcome.noConfusion h, fun h => Outcome.noConfusion h,
        fun _ => ?_⟩
      simp only [modeInv]
      exact refresh_status_result_mode m dev st hres
  | opRefreshConfig =>
    cases hres : refresh_config_result m dev with
    | error e =>
      have hrun : runOp m dev Op.opRefreshConfig = (.err e, m) := by
        simp [runOp, refresh_config, hres]
      rw [hrun]
      exact ⟨fun _ _ => rfl, fun _ => rfl, fun h => Outcome.noConfusion h⟩
    | ok cf =>
      have hrun : runOp m dev Op.opRefreshConfig = (.ok (), { m with config := cf }) := by
        simp [runOp, refresh_config, hres]
      rw [hrun]
      exact ⟨fun _ h => Outcome.noConfusion h, fun h => Outcome.noConfusion h,
        fun _ => rfl⟩

/-- Witness for C5 at concrete inputs: a successful get_mode tracks the
mode read from the device, and the hanging set_mode into POSITION with
non-trivial limits leaves the state unchanged. -/
theorem C5_mode_cache_invariant_witness :
    modeInv motor0 devGood Op.opGetMode (runOp motor0 devGood Op.opGetMode).2 ∧
    (runOp motorBounded devGood (Op.opSetMode (.mode .POSITION))).2 = motorBounded :=
  ⟨(C5_mode_cache_invariant motor0 devGood Op.opGetMode).2.2 (by decide),
   (C5_mode_cache_invariant motorBounded devGood
     (Op.opSetMode (.mode .POSITION))).2.1 (by decide)⟩
